import Mathlib

/-!
Verification of the workflow/session core of `src/streamlit_app.py`.

The file shallowly embeds the session-state machine of the Streamlit app:
the session dictionary (`st.session_state`) becomes the `WorkflowSession`
structure, each user-driven handler (the Stage-1 analyze click, the Stage-2
submit click, the inline brand-manager content form, the role buttons, the
read-only tabs) becomes a function from the session and the handler's inputs
to the new session, the list of messages displayed (`st.error` / `st.success`
/ `st.info` / `st.write`), and the list of HTTP requests issued.  The
behaviour of the network is an explicit `GatewayReply` argument: what
`requests.post` would produce if the handler reaches it; whether the handler
actually reaches it is recorded in the returned request list.
-/

namespace ProjectBrief

/-- Python truthiness of an optional string (`None` and `""` are falsy),
used for every `if not x:` guard of the source where `x` is an optional
string-valued field. -/
def optStrTruthy : Option String → Bool
  | none => false
  | some s => s != ""

/-- Whitespace characters stripped by Python `str.strip()` (the classes
occurring in this app's inputs). -/
def pyIsSpace (c : Char) : Bool :=
  c == ' ' || c == '\t' || c == '\n' || c == '\r'

/-- Python `s.strip()`: the string with leading and trailing whitespace
removed. -/
def pyStrip (s : String) : String :=
  String.mk (((s.data.dropWhile pyIsSpace).reverse.dropWhile pyIsSpace).reverse)

/-- Whether a character list begins with the given separator. -/
def startsWithChars : List Char → List Char → Bool
  | _, [] => true
  | [], _ :: _ => false
  | a :: as, b :: bs => (a == b) && startsWithChars as bs

/-- The segment of a character list before the first occurrence of the
(non-empty) separator; the whole list when the separator does not occur. -/
def splitFirstAux (sep : List Char) : List Char → List Char
  | [] => []
  | a :: as => if startsWithChars (a :: as) sep then [] else a :: splitFirstAux sep as

/-- Python `s.split(sep)[0]` for a non-empty separator. -/
def pySplitFirst (s sep : String) : String :=
  String.mk (splitFirstAux sep.data s.data)

/-- The two login roles of the app (`st.session_state.user_role` values
`"brand_manager"` and `"content_writer"`). -/
inductive Role
  | brand_manager
  | content_writer
  deriving DecidableEq

/-- The `basecamp_integration` object of a backend response
(`streamlit_app.py` consumes the keys `content_writer_uploaded`,
`content_writer_notified`, `designer_uploaded`, `designer_notified`,
`errors`). -/
structure BasecampIntegration where
  content_writer_uploaded : Bool
  content_writer_notified : Bool
  designer_uploaded : Bool
  designer_notified : Bool
  errors : List String
  deriving DecidableEq

/-- The `report_data` object of a backend response. -/
structure ReportData where
  project_brief_id : Option String
  project_summary : Option String
  content_writer_report : Option String
  designer_report : Option String
  deriving DecidableEq

/-- The parsed JSON body of a successful `POST /upload` response, restricted
to the keys the app consumes (processing time is kept as an abstract `Nat`;
its `:.2f` float rendering is presentation). -/
structure Stage1Response where
  success : Bool
  processing_time : Nat
  tokens_used : Option Nat
  analysis_type : Option String
  report_data : ReportData
  basecamp_integration : Option BasecampIntegration
  deriving DecidableEq

/-- The parsed JSON body of a successful `POST /submit-content` response,
restricted to the keys the app consumes. -/
structure Stage2Response where
  success : Bool
  project_brief_id : Option String
  stage : Option String
  processing_time : Nat
  report_data : ReportData
  basecamp_integration : Option BasecampIntegration
  deriving DecidableEq

/-- The session dictionary `st.session_state`: every key the app reads or
writes.  `st.session_state` persists across `st.rerun()`, so every handler
below is a function on this structure. -/
structure WorkflowSession where
  user_role : Option Role
  analysis_results : Option Stage1Response
  uploaded_file : Option String
  project_brief_id : Option String
  content_writer_id : Option String
  submitted_content : Option String
  designer_results : Option Stage2Response
  selected_project_id : Option String
  selected_project_name : Option String
  deriving DecidableEq

/-- The session as it exists before any key is written (all keys absent). -/
def emptyWorkflowSession : WorkflowSession :=
  { user_role := none
    analysis_results := none
    uploaded_file := none
    project_brief_id := none
    content_writer_id := none
    submitted_content := none
    designer_results := none
    selected_project_id := none
    selected_project_name := none }

/-- The abstract workflow stage of the specification. -/
inductive Stage
  | NotStarted
  | Stage1Complete
  | Stage2Complete
  deriving DecidableEq

/-- Derived stage of a session: the app has no explicit stage variable; the
spec's `Stage1Complete` is the presence of stored Stage-1 analysis results
and `Stage2Complete` the presence of stored Stage-2 designer results. -/
def WorkflowSession.stage (s : WorkflowSession) : Stage :=
  if s.designer_results.isSome then Stage.Stage2Complete
  else if s.analysis_results.isSome then Stage.Stage1Complete
  else Stage.NotStarted

/-- A message rendered to the user (`st.error`, `st.success`, `st.info`,
`st.write`). -/
inductive DisplayMsg
  | errorMsg (text : String)
  | successMsg (text : String)
  | infoMsg (text : String)
  | writeText (text : String)
  deriving DecidableEq

/-- Rendering of a Python list of strings inside an f-string, as in
`st.error(f"⚠️ Some errors occurred: {basecamp_status['errors']}")`. -/
def pyStrListRepr (l : List String) : String :=
  "[" ++ String.intercalate ", " (l.map (fun e => "\x27" ++ e ++ "\x27")) ++ "]"

/-- The multipart request sent by the Stage-1 analyze handler to
`POST /upload` (the `files` + `data` dictionaries, lines 395-410). -/
structure UploadRequest where
  file : String
  content_writer_id : String
  analysis_type : String
  include_suggestions : Bool
  project_id : Option String
  project_name : Option String
  deriving DecidableEq

/-- The request sent by the Stage-2 submit handler to `POST /submit-content`
(the `content_data` dictionary plus the optional `content_file`,
lines 740-769). -/
structure SubmitContentRequest where
  project_brief_id : String
  designer_id : String
  content_writer_id : Option String
  content_text : Option String
  content_file : Option String
  has_file : Bool
  deriving DecidableEq

/-- An HTTP request issued by a handler. -/
inductive Request
  | upload (r : UploadRequest)
  | submitContent (r : SubmitContentRequest)
  deriving DecidableEq

/-- What the network does if the handler posts its request: an HTTP response
(with parsed JSON payload, consulted only when the status is 200), or a
raised `requests.exceptions.Timeout` / `requests.exceptions.ConnectionError`
/ other exception carrying its `str(e)` text. -/
inductive GatewayReply (α : Type)
  | http (status : Nat) (body : String) (payload : α)
  | timeout (exnText : String)
  | connectionFailed (exnText : String)
  | otherExn (exnText : String)
  deriving DecidableEq

/-- Whether a reply is a successful HTTP 200 response. -/
def replyIs200 {α : Type} : GatewayReply α → Bool
  | .http status _ _ => status == 200
  | _ => false

/-- A user record of the `GET /users` response. -/
structure User where
  name : String
  email : String
  basecamp_user_id : Option String
  deriving DecidableEq

/-- Filtering of the backend user list to eligible recipients:
`[user for user in available_users if user.get("basecamp_user_id")]`
(lines 328 and 694). -/
def eligibleRecipients (users : List User) : List User :=
  users.filter (fun u => optStrTruthy u.basecamp_user_id)

/-- Recovery of the display name from the selected dropdown option:
`selected.split(" (")[0]` (lines 340 and 706). -/
def selectedDisplayName (display : String) : String :=
  pySplitFirst display " ("

/-- Resolution of the chosen content-writer dropdown option to a user:
first eligible user whose `name` equals the parsed display name
(lines 339-343). -/
def resolveContentWriter (selected : String) (users : List User) : Option User :=
  if selected == "None" then none
  else (eligibleRecipients users).find? (fun u => u.name == selectedDisplayName selected)

/-- Resolution of the chosen designer dropdown option to a user
(lines 705-709); same logic as the content-writer resolution. -/
def resolveDesigner (selected : String) (users : List User) : Option User :=
  if selected == "None" then none
  else (eligibleRecipients users).find? (fun u => u.name == selectedDisplayName selected)

/-- The `🔄 Change Role` button handler (lines 196-198 and 245-247):
`st.session_state.user_role = None` followed by `st.rerun()`.  No other
session key is written or deleted. -/
def clearRole (s : WorkflowSession) : WorkflowSession :=
  { s with user_role := none }

/-- The role-selection button handler (lines 153-155 and 170-172):
`st.session_state.user_role = <role>` followed by `st.rerun()`. -/
def selectRole (s : WorkflowSession) (r : Role) : WorkflowSession :=
  { s with user_role := some r }

/-- The `data` + `files` payload of the Stage-1 `POST /upload` call
(lines 395-402). -/
def mkUploadRequest (s : WorkflowSession) (uploadedFileName : String)
    (content_writer_id : Option String) (analysisType : String)
    (includeSuggestions : Bool) : UploadRequest :=
  { file := uploadedFileName
    content_writer_id := content_writer_id.getD ""
    analysis_type := analysisType
    include_suggestions := includeSuggestions
    project_id := s.selected_project_id
    project_name := s.selected_project_name }

/-- The messages displayed in the 200 branch of the Stage-1 analyze handler
(lines 419-465): the success banner, the Basecamp integration block, the
Stage-2 hand-off info and the tab-switch hint. -/
def stage1SuccessMessages (result : Stage1Response) : List DisplayMsg :=
  [DisplayMsg.successMsg "🎉 Stage 1 Analysis completed successfully!"]
    ++ (match result.basecamp_integration with
        | none => []
        | some b =>
            (if b.content_writer_uploaded then
               [DisplayMsg.successMsg "✅ Content Writer Report uploaded to Basecamp"]
             else [])
              ++ (if b.content_writer_notified then
                    [DisplayMsg.successMsg "✅ Content Writer notification sent"]
                  else [])
              ++ (if b.errors.isEmpty then []
                  else [DisplayMsg.errorMsg
                          ("⚠️ Some errors occurred: " ++ pyStrListRepr b.errors)]))
    ++ [DisplayMsg.infoMsg
          "After the content writer completes their work, submit the content here to generate a designer report.",
        DisplayMsg.infoMsg
          "📊 Switch to \x27Analysis Results\x27 tab to view detailed reports"]

/-- The Stage-1 analyze-click handler of `upload_and_analyze_tab`
(lines 387-475).  Guard: `if not content_writer_id:` fail fast with an
error and no request.  Otherwise post `/upload`; on HTTP 200 store the
result and the uploaded file name, and, when `report_data.project_brief_id`
is truthy, also `project_brief_id` and `content_writer_id`; on any other
status display `f"❌ Analysis failed: {response.text}"` and leave the
session untouched; on a raised exception display the corresponding
message and leave the session untouched. -/
def upload_and_analyze_submit (s : WorkflowSession) (uploadedFileName : String)
    (content_writer_id : Option String) (analysisType : String)
    (includeSuggestions : Bool) (reply : GatewayReply Stage1Response) :
    WorkflowSession × List DisplayMsg × List Request :=
  if optStrTruthy content_writer_id then
    let req := mkUploadRequest s uploadedFileName content_writer_id analysisType includeSuggestions
    match reply with
    | .http status body result =>
        if status == 200 then
          let s1 := { s with analysis_results := some result
                             uploaded_file := some uploadedFileName }
          let s2 :=
            if optStrTruthy result.report_data.project_brief_id then
              { s1 with project_brief_id := result.report_data.project_brief_id
                        content_writer_id := content_writer_id }
            else s1
          (s2, stage1SuccessMessages result, [Request.upload req])
        else
          (s, [DisplayMsg.errorMsg ("❌ Analysis failed: " ++ body)], [Request.upload req])
    | .timeout _ =>
        (s, [DisplayMsg.errorMsg "⏰ Analysis timed out. Please try again with a shorter document."],
          [Request.upload req])
    | .connectionFailed _ =>
        (s, [DisplayMsg.errorMsg "🔌 Connection error. Please check if the backend server is running."],
          [Request.upload req])
    | .otherExn m =>
        (s, [DisplayMsg.errorMsg ("❌ Unexpected error: " ++ m)], [Request.upload req])
  else
    (s, [DisplayMsg.errorMsg "❌ Please select a content writer to receive the Stage 1 report"], [])

/-- One attempted Stage-1 submission: the handler's inputs together with
what the network would reply. -/
structure Stage1Attempt where
  fileName : String
  content_writer_id : Option String
  analysisType : String
  includeSuggestions : Bool
  reply : GatewayReply Stage1Response
  deriving DecidableEq

/-- Sequential execution of a list of Stage-1 submission attempts, each
acting on the session left by the previous one. -/
def runStage1Attempts (s : WorkflowSession) : List Stage1Attempt → WorkflowSession
  | [] => s
  | a :: rest =>
      runStage1Attempts
        (upload_and_analyze_submit s a.fileName a.content_writer_id a.analysisType
          a.includeSuggestions a.reply).1 rest

/-- The inline brand-manager content form shown after a successful Stage-1
analysis (lines 447-462): on submit with non-blank text it displays an info
note and a success banner and stores the text in
`st.session_state.submitted_content`; no HTTP request is made. -/
def brand_manager_inline_content_submission (s : WorkflowSession)
    (content_text : String) (submitClicked : Bool) :
    WorkflowSession × List DisplayMsg × List Request :=
  if submitClicked && (pyStrip content_text != "") then
    ({ s with submitted_content := some content_text },
      [DisplayMsg.infoMsg
         "💡 **Note:** Designer selection will be handled by the content writer in their dashboard.",
       DisplayMsg.successMsg
         "✅ Content submitted successfully! The content writer will now handle designer selection and report generation."],
      [])
  else (s, [], [])

/-- The `content_data` dictionary (plus the optional file) of the Stage-2
`POST /submit-content` call (lines 740-754): `content_writer_id` is the
literal `None`, `content_text` is added only when non-blank, `has_file`
marks the presence of the uploaded content file. -/
def mkSubmitContentRequest (results : Stage1Response) (designer_id : Option String)
    (content_text : String) (content_file : Option String) : SubmitContentRequest :=
  { project_brief_id := results.report_data.project_brief_id.getD ""
    designer_id := designer_id.getD ""
    content_writer_id := none
    content_text := if pyStrip content_text == "" then none else some content_text
    content_file := content_file
    has_file := content_file.isSome }

/-- The Stage-2 submission attempt of `content_writer_submit_tab`
(lines 647-790): the render-time gating on stored analysis results and on
`report_data.project_brief_id` (lines 651-660), then the submit-click
validation of content and designer (lines 727-735), then the
`POST /submit-content` call; on HTTP 200 the result is stored in
`st.session_state.designer_results`, on any other status the error shows
the response body, and the single `except Exception` clause turns every
raised exception into `f"❌ Error submitting content: {str(e)}"`. -/
def content_writer_submit_tab (s : WorkflowSession) (content_file : Option String)
    (content_text : String) (designer_id : Option String)
    (reply : GatewayReply Stage2Response) :
    WorkflowSession × List DisplayMsg × List Request :=
  match s.analysis_results with
  | none =>
      (s, [DisplayMsg.infoMsg
             "📤 No projects available. Please wait for a brand manager to assign you a project."], [])
  | some results =>
      if optStrTruthy results.report_data.project_brief_id then
        if content_file.isNone && (pyStrip content_text == "") then
          (s, [DisplayMsg.errorMsg "❌ Please either upload a content document or enter content text"], [])
        else if optStrTruthy designer_id then
          let req := mkSubmitContentRequest results designer_id content_text content_file
          match reply with
          | .http status body result =>
              if status == 200 then
                ({ s with designer_results := some result },
                  [DisplayMsg.successMsg
                     "🎉 Content submitted successfully! Designer report generated and uploaded to Basecamp."]
                    ++ (match result.basecamp_integration with
                        | none => []
                        | some b =>
                            (if b.designer_uploaded then
                               [DisplayMsg.successMsg "✅ Designer Report uploaded to Basecamp"]
                             else [])
                              ++ (if b.designer_notified then
                                    [DisplayMsg.successMsg "✅ Designer notification sent"]
                                  else [])),
                  [Request.submitContent req])
              else
                (s, [DisplayMsg.errorMsg ("❌ Content submission failed: " ++ body)],
                  [Request.submitContent req])
          | .timeout m =>
              (s, [DisplayMsg.errorMsg ("❌ Error submitting content: " ++ m)],
                [Request.submitContent req])
          | .connectionFailed m =>
              (s, [DisplayMsg.errorMsg ("❌ Error submitting content: " ++ m)],
                [Request.submitContent req])
          | .otherExn m =>
              (s, [DisplayMsg.errorMsg ("❌ Error submitting content: " ++ m)],
                [Request.submitContent req])
        else
          (s, [DisplayMsg.errorMsg "❌ Please select a designer to receive the report"], [])
      else
        (s, [DisplayMsg.errorMsg "❌ No project ID found. Please contact the brand manager."], [])

/-- The read-only Content History tab of the content writer (lines 792-832),
as the list of rendered messages.  The wall-clock `datetime.now()` line is
presentation with no session input and is omitted; the `:.2f` float format
of the processing time is rendered through `toString`. -/
def content_writer_history_tab (s : WorkflowSession) : List DisplayMsg :=
  match s.designer_results with
  | none =>
      [DisplayMsg.infoMsg
         "📤 No completed content submissions yet. Submit your content to see history here."]
  | some results =>
      [DisplayMsg.infoMsg ("**Project ID:** " ++ results.project_brief_id.getD "Unknown"),
       DisplayMsg.infoMsg ("**Processing Time:** " ++ toString results.processing_time ++ " seconds"),
       DisplayMsg.infoMsg ("**Status:** " ++ results.stage.getD "Unknown")]
        ++ (if optStrTruthy results.report_data.designer_report then
              [DisplayMsg.writeText (results.report_data.designer_report.getD "")]
            else [])
        ++ (match results.basecamp_integration with
            | none => []
            | some b =>
                (if b.designer_uploaded then
                   [DisplayMsg.successMsg "✅ Designer Report uploaded to Basecamp"]
                 else [])
                  ++ (if b.designer_notified then
                        [DisplayMsg.successMsg "✅ Designer notification sent"]
                      else [])
                  ++ (if b.errors.isEmpty then []
                      else [DisplayMsg.errorMsg
                              ("⚠️ Some errors occurred: " ++ pyStrListRepr b.errors)]))
        ++ [DisplayMsg.infoMsg
              "💡 **Note:** Your content has been successfully processed and the designer report has been generated and uploaded to Basecamp."]

/-- The three-metric quick summary rendered by `show_analysis_summary`
(lines 579-596): processing time, analysis type (dict default `"Unknown"`),
success flag, plus the optional project-id info line. -/
structure SummaryView where
  processing_time_metric : Nat
  analysis_type_metric : String
  status_metric : String
  project_id_info : Option String
  deriving DecidableEq

/-- `show_analysis_summary` as a function of the stored Stage-1 response. -/
def show_analysis_summary (results : Stage1Response) : SummaryView :=
  { processing_time_metric := results.processing_time
    analysis_type_metric := results.analysis_type.getD "Unknown"
    status_metric := if results.success then "✅ Complete" else "❌ Failed"
    project_id_info :=
      if optStrTruthy results.report_data.project_brief_id then
        some ("**Project ID:** " ++ results.report_data.project_brief_id.getD "")
      else none }

/-- `show_analysis_summary` as a step on the session: the function performs
only display calls (`st.metric`, `st.info`) and writes no session key, so
the step returns the session it was given. -/
def show_analysis_summary_step (s : WorkflowSession) (results : Stage1Response) :
    WorkflowSession × SummaryView :=
  (s, show_analysis_summary results)

/-- Session invariant coupling the stored `project_brief_id` key with the
copy embedded in the stored analysis results: whenever the
`project_brief_id` key is absent, any stored Stage-1 result carries no
truthy `report_data.project_brief_id` (both are written together in the 200
branch of the Stage-1 handler, lines 437-440). -/
def PbidInv (s : WorkflowSession) : Prop :=
  s.project_brief_id = none →
    ∀ r, s.analysis_results = some r → optStrTruthy r.report_data.project_brief_id = false

/-! Concrete sample data used by witnesses and counterexamples. -/

/-- A clean Stage-1 integration status. -/
def sampleStage1Basecamp : BasecampIntegration :=
  { content_writer_uploaded := true
    content_writer_notified := true
    designer_uploaded := false
    designer_notified := false
    errors := [] }

/-- A successful Stage-1 response carrying project brief `PB-123`. -/
def sampleStage1Response : Stage1Response :=
  { success := true
    processing_time := 12
    tokens_used := some 100
    analysis_type := some "comprehensive"
    report_data :=
      { project_brief_id := some "PB-123"
        project_summary := some "summary"
        content_writer_report := some "cw report"
        designer_report := none }
    basecamp_integration := some sampleStage1Basecamp }

/-- A Stage-2 integration status with a partial failure recorded. -/
def sampleStage2Basecamp : BasecampIntegration :=
  { content_writer_uploaded := false
    content_writer_notified := false
    designer_uploaded := true
    designer_notified := true
    errors := ["notify failed"] }

/-- A successful Stage-2 response whose integration status carries a
partial failure. -/
def sampleStage2Response : Stage2Response :=
  { success := true
    project_brief_id := some "PB-123"
    stage := some "stage2_complete"
    processing_time := 8
    report_data :=
      { project_brief_id := none
        project_summary := none
        content_writer_report := none
        designer_report := some "designer report" }
    basecamp_integration := some sampleStage2Basecamp }

/-- A session in mid-workflow: Stage 1 has succeeded and every key is
populated. -/
def richSession : WorkflowSession :=
  { user_role := some Role.brand_manager
    analysis_results := some sampleStage1Response
    uploaded_file := some "brief.pdf"
    project_brief_id := some "PB-123"
    content_writer_id := some "7"
    submitted_content := some "draft"
    designer_results := none
    selected_project_id := some "p1"
    selected_project_name := some "Acme Redesign" }

/-- A session after a successful Stage 1, viewed by the content writer. -/
def stage1DoneSession : WorkflowSession :=
  { user_role := some Role.content_writer
    analysis_results := some sampleStage1Response
    uploaded_file := some "brief.pdf"
    project_brief_id := some "PB-123"
    content_writer_id := some "42"
    submitted_content := none
    designer_results := none
    selected_project_id := none
    selected_project_name := none }

/-- A Stage-1 attempt whose gateway reply is an HTTP 500. -/
def failingAttempt : Stage1Attempt :=
  { fileName := "brief.pdf"
    content_writer_id := some "7"
    analysisType := "comprehensive"
    includeSuggestions := true
    reply := GatewayReply.http 500 "boom" sampleStage1Response }

/-! Helper lemmas. -/

/-- `find?` returns the first element satisfying the predicate: if nothing
in the prefix satisfies it and `u` does, the search stops at `u`. -/
theorem find_eq_of_first {α : Type} (p : α → Bool) (l1 : List α) (u : α) (l2 : List α)
    (h1 : ∀ w ∈ l1, p w = false) (hu : p u = true) :
    (l1 ++ u :: l2).find? p = some u := by
  induction l1 with
  | nil =>
      simp only [List.nil_append]
      exact List.find?_cons_of_pos _ hu
  | cons a t ih =>
      have ha : p a = false := h1 a (List.mem_cons_self a t)
      rw [List.cons_append, List.find?_cons_of_neg _ (by simp [ha])]
      exact ih (fun w hw => h1 w (List.mem_cons_of_mem a hw))

/-- A Stage-1 attempt whose gateway reply is not an HTTP 200 leaves the
session untouched. -/
theorem upload_submit_fst_of_fail (s : WorkflowSession) (fn : String)
    (cw : Option String) (aty : String) (inc : Bool)
    (reply : GatewayReply Stage1Response) (h : replyIs200 reply = false) :
    (upload_and_analyze_submit s fn cw aty inc reply).1 = s := by
  cases hcw : optStrTruthy cw with
  | false => simp [upload_and_analyze_submit, hcw]
  | true =>
      cases reply with
      | http status body payload =>
          simp only [replyIs200] at h
          simp [upload_and_analyze_submit, hcw, h]
      | timeout m => simp [upload_and_analyze_submit, hcw]
      | connectionFailed m => simp [upload_and_analyze_submit, hcw]
      | otherExn m => simp [upload_and_analyze_submit, hcw]

/-- A sequence of Stage-1 attempts none of which receives an HTTP 200
leaves the session exactly as it was. -/
theorem runStage1Attempts_eq_of_all_fail :
    ∀ (attempts : List Stage1Attempt) (s : WorkflowSession),
      (∀ a ∈ attempts, replyIs200 a.reply = false) → runStage1Attempts s attempts = s := by
  intro attempts
  induction attempts with
  | nil => intro s _; rfl
  | cons a rest ih =>
      intro s h
      have ha : replyIs200 a.reply = false := h a (List.mem_cons_self a rest)
      have hs := upload_submit_fst_of_fail s a.fileName a.content_writer_id a.analysisType
        a.includeSuggestions a.reply ha
      simp only [runStage1Attempts, hs]
      exact ih s (fun b hb => h b (List.mem_cons_of_mem a hb))

/-- The empty session satisfies the project-brief-id coupling invariant. -/
theorem pbidInv_empty : PbidInv emptyWorkflowSession := by
  intro _ r hr
  simp [emptyWorkflowSession] at hr

/-- The Stage-1 handler preserves the project-brief-id coupling invariant:
the session's `project_brief_id` key and the copy inside the stored
analysis results are written together in the 200 branch. -/
theorem pbidInv_upload_submit (s : WorkflowSession) (fn : String)
    (cw : Option String) (aty : String) (inc : Bool)
    (reply : GatewayReply Stage1Response) (h : PbidInv s) :
    PbidInv (upload_and_analyze_submit s fn cw aty inc reply).1 := by
  intro hnull r' hr'
  cases hcw : optStrTruthy cw with
  | false =>
      simp [upload_and_analyze_submit, hcw] at hnull hr'
      exact h hnull r' hr'
  | true =>
      cases reply with
      | http status body result =>
          cases h200 : (status == 200) with
          | false =>
              simp [upload_and_analyze_submit, hcw, h200] at hnull hr'
              exact h hnull r' hr'
          | true =>
              cases hp : optStrTruthy result.report_data.project_brief_id with
              | true =>
                  simp [upload_and_analyze_submit, hcw, h200, hp] at hnull
                  rw [hnull] at hp
                  simp [optStrTruthy] at hp
              | false =>
                  simp [upload_and_analyze_submit, hcw, h200, hp] at hr'
                  rw [hr'] at hp
                  exact hp
      | timeout m =>
          simp [upload_and_analyze_submit, hcw] at hnull hr'
          exact h hnull r' hr'
      | connectionFailed m =>
          simp [upload_and_analyze_submit, hcw] at hnull hr'
          exact h hnull r' hr'
      | otherExn m =>
          simp [upload_and_analyze_submit, hcw] at hnull hr'
          exact h hnull r' hr'

/-! Claims. -/

/-- Claim C3, counterexample: the Change Role handler does not reset the
session to the empty `WorkflowSession`.  On a fully populated session it
clears only `user_role`; the analysis results, `project_brief_id` and
submitted content all survive, and the resulting session is not the empty
one. -/
theorem clear_role_retains_workflow_fields :
    (clearRole richSession).user_role = none
      ∧ (clearRole richSession).project_brief_id = some "PB-123"
      ∧ (clearRole richSession).analysis_results = some sampleStage1Response
      ∧ (clearRole richSession).submitted_content = some "draft"
      ∧ clearRole richSession ≠ emptyWorkflowSession := by
  refine ⟨rfl, rfl, rfl, rfl, ?_⟩
  decide

/-- Claim C3, amended: clearing the role (the Change Role action) sets the
current role to `None` and leaves every other session key — the analysis
results, uploaded file name, `project_brief_id`, recipient identifiers,
submitted content and designer results — exactly as it was; the
`WorkflowSession` is retained, not discarded. -/
theorem clear_role_clears_only_role (s : WorkflowSession) :
    (clearRole s).user_role = none
      ∧ (clearRole s).analysis_results = s.analysis_results
      ∧ (clearRole s).uploaded_file = s.uploaded_file
      ∧ (clearRole s).project_brief_id = s.project_brief_id
      ∧ (clearRole s).content_writer_id = s.content_writer_id
      ∧ (clearRole s).submitted_content = s.submitted_content
      ∧ (clearRole s).designer_results = s.designer_results
      ∧ (clearRole s).selected_project_id = s.selected_project_id
      ∧ (clearRole s).selected_project_name = s.selected_project_name :=
  ⟨rfl, rfl, rfl, rfl, rfl, rfl, rfl, rfl, rfl⟩

/-- Claim C6: when no content writer with an external identifier is
selected (the selection is falsy), the Stage-1 analyze click fails fast
with the distinct content-writer error, the session is unchanged, and no
`/upload` request is issued — whatever the network would have replied. -/
theorem stage1_fail_fast_without_content_writer (s : WorkflowSession)
    (fn : String) (cw : Option String) (aty : String) (inc : Bool)
    (reply : GatewayReply Stage1Response) (h : optStrTruthy cw = false) :
    upload_and_analyze_submit s fn cw aty inc reply
      = (s, [DisplayMsg.errorMsg "❌ Please select a content writer to receive the Stage 1 report"],
          []) := by
  simp [upload_and_analyze_submit, h]

/-- Witness for C6: the fail-fast rejection at a concrete session with no
selected content writer. -/
theorem stage1_fail_fast_without_content_writer_witness :
    upload_and_analyze_submit emptyWorkflowSession "brief.pdf" none "comprehensive" true
        (GatewayReply.http 200 "ok" sampleStage1Response)
      = (emptyWorkflowSession,
          [DisplayMsg.errorMsg "❌ Please select a content writer to receive the Stage 1 report"],
          []) :=
  stage1_fail_fast_without_content_writer emptyWorkflowSession "brief.pdf" none
    "comprehensive" true (GatewayReply.http 200 "ok" sampleStage1Response) (by decide)

/-- Claim C8: the quick-summary projection is a pure function of the stored
Stage-1 response: rendering it leaves the session untouched, projecting
twice yields the same view, and the view is exactly
`show_analysis_summary` of the response. -/
theorem show_analysis_summary_pure_idempotent (s : WorkflowSession)
    (results : Stage1Response) :
    (show_analysis_summary_step s results).1 = s
      ∧ (show_analysis_summary_step (show_analysis_summary_step s results).1 results).2
          = (show_analysis_summary_step s results).2
      ∧ (show_analysis_summary_step s results).2 = show_analysis_summary results :=
  ⟨rfl, rfl, rfl⟩

/-- Claim C9: submitting non-blank text through the brand manager's inline
content form stores the text in `submitted_content`, reports an info note
and a success banner, issues no HTTP request, and leaves the role, both
stage results, `project_brief_id` and the derived stage unchanged. -/
theorem inline_content_submission_frame (s : WorkflowSession)
    (content_text : String) (h : pyStrip content_text ≠ "") :
    brand_manager_inline_content_submission s content_text true
        = ({ s with submitted_content := some content_text },
            [DisplayMsg.infoMsg
               "💡 **Note:** Designer selection will be handled by the content writer in their dashboard.",
             DisplayMsg.successMsg
               "✅ Content submitted successfully! The content writer will now handle designer selection and report generation."],
            [])
      ∧ ({ s with submitted_content := some content_text } : WorkflowSession).stage = s.stage := by
  have hb : (pyStrip content_text != "") = true := bne_iff_ne.mpr h
  constructor
  · simp [brand_manager_inline_content_submission, hb]
  · simp [WorkflowSession.stage]

/-- Witness for C9: the inline form at a concrete session and non-blank
text. -/
theorem inline_content_submission_frame_witness :
    brand_manager_inline_content_submission richSession "draft text" true
        = ({ richSession with submitted_content := some "draft text" },
            [DisplayMsg.infoMsg
               "💡 **Note:** Designer selection will be handled by the content writer in their dashboard.",
             DisplayMsg.successMsg
               "✅ Content submitted successfully! The content writer will now handle designer selection and report generation."],
            [])
      ∧ ({ richSession with submitted_content := some "draft text" } : WorkflowSession).stage
          = richSession.stage :=
  inline_content_submission_frame richSession "draft text" (by decide)

/-- Claim C1, counterexample: the surfaced error of a failing `/upload`
response does not carry the HTTP status.  Two runs that differ only in the
status (500 versus 502) produce identical sessions, identical messages and
identical requests, so the surfaced error cannot determine the status; the
single message shown is exactly the response body behind the fixed
`❌ Analysis failed:` banner. -/
theorem stage1_error_omits_http_status :
    upload_and_analyze_submit emptyWorkflowSession "brief.pdf" (some "7") "comprehensive" true
        (GatewayReply.http 500 "boom" sampleStage1Response)
      = upload_and_analyze_submit emptyWorkflowSession "brief.pdf" (some "7") "comprehensive" true
        (GatewayReply.http 502 "boom" sampleStage1Response)
      ∧ (upload_and_analyze_submit emptyWorkflowSession "brief.pdf" (some "7") "comprehensive" true
          (GatewayReply.http 500 "boom" sampleStage1Response)).2.1
        = [DisplayMsg.errorMsg "❌ Analysis failed: boom"] := by
  constructor
  · decide
  · decide

/-- Claim C1, amended: over any sequence of Stage-1 attempts the session
(and hence its stage) changes only through an HTTP 200 reply — with no 200
reply in the sequence the session is left exactly as it was; a failing
HTTP response leaves the session unchanged and surfaces an error carrying
the response body (but not the HTTP status); a transport error leaves the
session unchanged and surfaces the corresponding transport error message:
the fixed timed-out message, the fixed connection-error message, or the
unexpected-error message carrying the exception text. -/
theorem stage1_advances_only_on_http200 :
    (∀ (s : WorkflowSession) (attempts : List Stage1Attempt),
        (∀ a ∈ attempts, replyIs200 a.reply = false) → runStage1Attempts s attempts = s)
      ∧ (∀ (s : WorkflowSession) (fn : String) (cw : Option String) (aty : String)
            (inc : Bool) (status : Nat) (body : String) (payload : Stage1Response),
          status ≠ 200 →
            (upload_and_analyze_submit s fn cw aty inc
                (GatewayReply.http status body payload)).1 = s
              ∧ (optStrTruthy cw = true →
                  (upload_and_analyze_submit s fn cw aty inc
                      (GatewayReply.http status body payload)).2.1
                    = [DisplayMsg.errorMsg ("❌ Analysis failed: " ++ body)]))
      ∧ (∀ (s : WorkflowSession) (fn : String) (cw : Option String) (aty : String)
            (inc : Bool) (m : String),
          ((upload_and_analyze_submit s fn cw aty inc (GatewayReply.timeout m)).1 = s
              ∧ (upload_and_analyze_submit s fn cw aty inc (GatewayReply.connectionFailed m)).1 = s
              ∧ (upload_and_analyze_submit s fn cw aty inc (GatewayReply.otherExn m)).1 = s)
            ∧ (optStrTruthy cw = true →
                (upload_and_analyze_submit s fn cw aty inc (GatewayReply.timeout m)).2.1
                    = [DisplayMsg.errorMsg
                        "⏰ Analysis timed out. Please try again with a shorter document."]
                  ∧ (upload_and_analyze_submit s fn cw aty inc
                        (GatewayReply.connectionFailed m)).2.1
                      = [DisplayMsg.errorMsg
                          "🔌 Connection error. Please check if the backend server is running."]
                  ∧ (upload_and_analyze_submit s fn cw aty inc (GatewayReply.otherExn m)).2.1
                      = [DisplayMsg.errorMsg ("❌ Unexpected error: " ++ m)])) := by
  refine ⟨fun s attempts h => runStage1Attempts_eq_of_all_fail attempts s h, ?_, ?_⟩
  · intro s fn cw aty inc status body payload hstatus
    have hb : (status == 200) = false := beq_eq_false_iff_ne.mpr hstatus
    constructor
    · exact upload_submit_fst_of_fail s fn cw aty inc _ (by simp [replyIs200, hb])
    · intro hcw
      simp [upload_and_analyze_submit, hcw, hb]
  · intro s fn cw aty inc m
    constructor
    · refine ⟨?_, ?_, ?_⟩ <;>
        exact upload_submit_fst_of_fail s fn cw aty inc _ (by simp [replyIs200])
    · intro hcw
      refine ⟨?_, ?_, ?_⟩ <;> simp [upload_and_analyze_submit, hcw]

/-- Witness for C1: a concrete failing attempt sequence and a concrete
HTTP 500 reply, both leaving the empty session unchanged, with the 500
reply surfacing the body-carrying error and a concrete timeout surfacing
the fixed timed-out message. -/
theorem stage1_advances_only_on_http200_witness :
    runStage1Attempts emptyWorkflowSession [failingAttempt] = emptyWorkflowSession
      ∧ (upload_and_analyze_submit emptyWorkflowSession "brief.pdf" (some "7") "comprehensive" true
          (GatewayReply.http 500 "boom" sampleStage1Response)).2.1
        = [DisplayMsg.errorMsg ("❌ Analysis failed: " ++ "boom")]
      ∧ (upload_and_analyze_submit emptyWorkflowSession "brief.pdf" (some "7") "comprehensive" true
          (GatewayReply.timeout "read timed out")).2.1
        = [DisplayMsg.errorMsg "⏰ Analysis timed out. Please try again with a shorter document."] := by
  refine ⟨?_, ?_, ?_⟩
  · exact stage1_advances_only_on_http200.1 emptyWorkflowSession [failingAttempt] (by decide)
  · exact (stage1_advances_only_on_http200.2.1 emptyWorkflowSession "brief.pdf" (some "7")
      "comprehensive" true 500 "boom" sampleStage1Response (by decide)).2 (by decide)
  · exact ((stage1_advances_only_on_http200.2.2 emptyWorkflowSession "brief.pdf" (some "7")
      "comprehensive" true "read timed out").2 (by decide)).1

/-- Claim C2: whenever the session's `project_brief_id` is absent (no prior
Stage-1 success, expressed through the coupling invariant `PbidInv`), a
Stage-2 submission attempt leaves the session unchanged, issues no
`/submit-content` request, and is rejected with the no-project info message
(form unreachable) or the missing-project-id validation error. -/
theorem stage2_rejected_when_project_brief_id_null (s : WorkflowSession)
    (hInv : PbidInv s) (hNull : s.project_brief_id = none)
    (content_file : Option String) (content_text : String)
    (designer_id : Option String) (reply : GatewayReply Stage2Response) :
    (content_writer_submit_tab s content_file content_text designer_id reply).1 = s
      ∧ (content_writer_submit_tab s content_file content_text designer_id reply).2.2 = []
      ∧ ((content_writer_submit_tab s content_file content_text designer_id reply).2.1
            = [DisplayMsg.infoMsg
                 "📤 No projects available. Please wait for a brand manager to assign you a project."]
          ∨ (content_writer_submit_tab s content_file content_text designer_id reply).2.1
            = [DisplayMsg.errorMsg "❌ No project ID found. Please contact the brand manager."]) := by
  cases hA : s.analysis_results with
  | none => refine ⟨?_, ?_, Or.inl ?_⟩ <;> simp [content_writer_submit_tab, hA]
  | some r =>
      have hf := hInv hNull r hA
      refine ⟨?_, ?_, Or.inr ?_⟩ <;> simp [content_writer_submit_tab, hA, hf]

/-- Witness for C2: the empty session (which satisfies the invariant and
has no `project_brief_id`) rejects a Stage-2 attempt without any request. -/
theorem stage2_rejected_when_project_brief_id_null_witness :
    (content_writer_submit_tab emptyWorkflowSession (some "content.pdf") "draft" (some "9")
        (GatewayReply.http 200 "ok" sampleStage2Response)).1 = emptyWorkflowSession
      ∧ (content_writer_submit_tab emptyWorkflowSession (some "content.pdf") "draft" (some "9")
          (GatewayReply.http 200 "ok" sampleStage2Response)).2.2 = []
      ∧ ((content_writer_submit_tab emptyWorkflowSession (some "content.pdf") "draft" (some "9")
            (GatewayReply.http 200 "ok" sampleStage2Response)).2.1
            = [DisplayMsg.infoMsg
                 "📤 No projects available. Please wait for a brand manager to assign you a project."]
          ∨ (content_writer_submit_tab emptyWorkflowSession (some "content.pdf") "draft" (some "9")
              (GatewayReply.http 200 "ok" sampleStage2Response)).2.1
            = [DisplayMsg.errorMsg "❌ No project ID found. Please contact the brand manager."]) :=
  stage2_rejected_when_project_brief_id_null emptyWorkflowSession pbidInv_empty rfl
    (some "content.pdf") "draft" (some "9") (GatewayReply.http 200 "ok" sampleStage2Response)

/-- Claim C4: when `/submit-content` succeeds (HTTP 200) but the response's
`basecamp_integration.errors` is non-empty, the result is still stored —
the derived stage advances to `Stage2Complete` — the success banner is
shown, and the Content History view of the stored result reports the
partial-integration warning carrying the errors. -/
theorem stage2_partial_integration_still_advances (s : WorkflowSession)
    (r : Stage1Response) (content_file : Option String) (content_text : String)
    (designer_id : Option String) (body : String) (result : Stage2Response)
    (b : BasecampIntegration)
    (hA : s.analysis_results = some r)
    (hpbid : optStrTruthy r.report_data.project_brief_id = true)
    (hcontent : (content_file.isNone && (pyStrip content_text == "")) = false)
    (hdid : optStrTruthy designer_id = true)
    (hbi : result.basecamp_integration = some b)
    (herr : b.errors ≠ []) :
    (content_writer_submit_tab s content_file content_text designer_id
        (GatewayReply.http 200 body result)).1.designer_results = some result
      ∧ (content_writer_submit_tab s content_file content_text designer_id
          (GatewayReply.http 200 body result)).1.stage = Stage.Stage2Complete
      ∧ DisplayMsg.successMsg
            "🎉 Content submitted successfully! Designer report generated and uploaded to Basecamp."
          ∈ (content_writer_submit_tab s content_file content_text designer_id
              (GatewayReply.http 200 body result)).2.1
      ∧ DisplayMsg.errorMsg ("⚠️ Some errors occurred: " ++ pyStrListRepr b.errors)
          ∈ content_writer_history_tab
              (content_writer_submit_tab s content_file content_text designer_id
                (GatewayReply.http 200 body result)).1 := by
  have hie : b.errors.isEmpty = false := by
    cases hbe : b.errors with
    | nil => exact absurd hbe herr
    | cons a t => rfl
  refine ⟨?_, ?_, ?_, ?_⟩ <;>
    simp [content_writer_submit_tab, hA, hpbid, hcontent, hdid, hbi, hie,
      WorkflowSession.stage, content_writer_history_tab]

/-- Witness for C4: a concrete successful Stage-2 submission whose
integration status records `["notify failed"]`. -/
theorem stage2_partial_integration_still_advances_witness :
    (content_writer_submit_tab stage1DoneSession (some "content.pdf") "draft" (some "9")
        (GatewayReply.http 200 "ok" sampleStage2Response)).1.designer_results
        = some sampleStage2Response
      ∧ (content_writer_submit_tab stage1DoneSession (some "content.pdf") "draft" (some "9")
          (GatewayReply.http 200 "ok" sampleStage2Response)).1.stage = Stage.Stage2Complete
      ∧ DisplayMsg.successMsg
            "🎉 Content submitted successfully! Designer report generated and uploaded to Basecamp."
          ∈ (content_writer_submit_tab stage1DoneSession (some "content.pdf") "draft" (some "9")
              (GatewayReply.http 200 "ok" sampleStage2Response)).2.1
      ∧ DisplayMsg.errorMsg ("⚠️ Some errors occurred: " ++ pyStrListRepr sampleStage2Basecamp.errors)
          ∈ content_writer_history_tab
              (content_writer_submit_tab stage1DoneSession (some "content.pdf") "draft" (some "9")
                (GatewayReply.http 200 "ok" sampleStage2Response)).1 :=
  stage2_partial_integration_still_advances stage1DoneSession sampleStage1Response
    (some "content.pdf") "draft" (some "9") "ok" sampleStage2Response sampleStage2Basecamp
    rfl (by decide) (by decide) (by decide) rfl (by decide)

/-- Claim C5: in a Stage-2 attempt with the form reachable, supplying both
content text (non-blank) and a content file passes validation and posts a
`/submit-content` request carrying both (`content_text` set, the file
attached, `has_file` true); supplying neither (blank text, no file) is
rejected with the either-document-or-text validation error, the session is
unchanged and no request is issued. -/
theorem stage2_both_accepted_neither_rejected :
    (∀ (s : WorkflowSession) (r : Stage1Response) (f : String) (content_text : String)
        (designer_id : Option String) (reply : GatewayReply Stage2Response),
      s.analysis_results = some r →
      optStrTruthy r.report_data.project_brief_id = true →
      pyStrip content_text ≠ "" →
      optStrTruthy designer_id = true →
        (content_writer_submit_tab s (some f) content_text designer_id reply).2.2
          = [Request.submitContent
               { project_brief_id := r.report_data.project_brief_id.getD ""
                 designer_id := designer_id.getD ""
                 content_writer_id := none
                 content_text := some content_text
                 content_file := some f
                 has_file := true }])
      ∧ (∀ (s : WorkflowSession) (r : Stage1Response) (content_text : String)
            (designer_id : Option String) (reply : GatewayReply Stage2Response),
          s.analysis_results = some r →
          optStrTruthy r.report_data.project_brief_id = true →
          pyStrip content_text = "" →
            content_writer_submit_tab s none content_text designer_id reply
              = (s, [DisplayMsg.errorMsg
                       "❌ Please either upload a content document or enter content text"], [])) := by
  constructor
  · intro s r f content_text designer_id reply hA hpbid htext hdid
    have htrim : (pyStrip content_text == "") = false := beq_eq_false_iff_ne.mpr htext
    cases reply with
    | http status body result =>
        cases h200 : (status == 200) <;>
          simp [content_writer_submit_tab, hA, hpbid, hdid, htrim, mkSubmitContentRequest, h200]
    | timeout m =>
        simp [content_writer_submit_tab, hA, hpbid, hdid, htrim, mkSubmitContentRequest]
    | connectionFailed m =>
        simp [content_writer_submit_tab, hA, hpbid, hdid, htrim, mkSubmitContentRequest]
    | otherExn m =>
        simp [content_writer_submit_tab, hA, hpbid, hdid, htrim, mkSubmitContentRequest]
  · intro s r content_text designer_id reply hA hpbid htext
    have htrim : (pyStrip content_text == "") = true := beq_iff_eq.mpr htext
    simp [content_writer_submit_tab, hA, hpbid, htrim]

/-- Witness for C5: a concrete both-present attempt posting both, and a
concrete neither-present attempt rejected without a request. -/
theorem stage2_both_accepted_neither_rejected_witness :
    (content_writer_submit_tab stage1DoneSession (some "content.pdf") "draft" (some "9")
        (GatewayReply.http 200 "ok" sampleStage2Response)).2.2
      = [Request.submitContent
           { project_brief_id := (sampleStage1Response.report_data.project_brief_id).getD ""
             designer_id := (some "9" : Option String).getD ""
             content_writer_id := none
             content_text := some "draft"
             content_file := some "content.pdf"
             has_file := true }]
      ∧ content_writer_submit_tab stage1DoneSession none "   " (some "9")
          (GatewayReply.http 200 "ok" sampleStage2Response)
        = (stage1DoneSession,
            [DisplayMsg.errorMsg "❌ Please either upload a content document or enter content text"],
            []) :=
  ⟨stage2_both_accepted_neither_rejected.1 stage1DoneSession sampleStage1Response
      "content.pdf" "draft" (some "9") (GatewayReply.http 200 "ok" sampleStage2Response)
      rfl (by decide) (by decide) (by decide),
    stage2_both_accepted_neither_rejected.2 stage1DoneSession sampleStage1Response
      "   " (some "9") (GatewayReply.http 200 "ok" sampleStage2Response)
      rfl (by decide) (by decide)⟩

/-- Claim C7: when the parsed display name of the selected option matches
more than one eligible user, both the Stage-1 content-writer resolution and
the Stage-2 designer resolution return the first matching user in listing
order of the eligible (external-identifier-bearing) users. -/
theorem recipient_resolution_first_match (users : List User) (sel : String)
    (l1 l2 : List User) (u v : User)
    (hsel : sel ≠ "None")
    (helig : eligibleRecipients users = l1 ++ u :: l2)
    (hu : u.name = selectedDisplayName sel)
    (hl1 : ∀ w ∈ l1, w.name ≠ selectedDisplayName sel)
    (hv : v ∈ l2) (hvname : v.name = selectedDisplayName sel) :
    resolveContentWriter sel users = some u ∧ resolveDesigner sel users = some u := by
  have hne : (sel == "None") = false := beq_eq_false_iff_ne.mpr hsel
  have hfind : (eligibleRecipients users).find?
      (fun w => w.name == selectedDisplayName sel) = some u := by
    rw [helig]
    exact find_eq_of_first _ l1 u l2
      (fun w hw => beq_eq_false_iff_ne.mpr (hl1 w hw))
      (beq_iff_eq.mpr hu)
  exact ⟨by simp [resolveContentWriter, hne, hfind],
    by simp [resolveDesigner, hne, hfind]⟩

/-- A first user named Jane, eligible (has an external identifier). -/
def jane1 : User := { name := "Jane", email := "jane@x.com", basecamp_user_id := some "1" }

/-- A second user also named Jane, also eligible. -/
def jane2 : User := { name := "Jane", email := "jane2@x.com", basecamp_user_id := some "2" }

/-- Witness for C7: two eligible users share the display name `Jane`; both
resolutions return the first one. -/
theorem recipient_resolution_first_match_witness :
    resolveContentWriter "Jane (jane@x.com)" [jane1, jane2] = some jane1
      ∧ resolveDesigner "Jane (jane@x.com)" [jane1, jane2] = some jane1 :=
  recipient_resolution_first_match [jane1, jane2] "Jane (jane@x.com)" [] [jane2] jane1 jane2
    (by decide) (by decide) (by decide)
    (by intro w hw; simp at hw) (by decide) (by decide)

/-- Claim C10: every `/submit-content` request ever issued by the Stage-2
submit handler carries `content_writer_id = None` — the handler hard-codes
the literal `None` in `content_data`, so the identifier selected and stored
in the session at Stage 1 is never forwarded, whatever the session holds. -/
theorem stage2_request_content_writer_id_null (s : WorkflowSession)
    (content_file : Option String) (content_text : String)
    (designer_id : Option String) (reply : GatewayReply Stage2Response)
    (req : Request) (z : SubmitContentRequest)
    (hmem : req ∈ (content_writer_submit_tab s content_file content_text designer_id reply).2.2)
    (hz : req = Request.submitContent z) :
    z.content_writer_id = none := by
  subst hz
  cases hA : s.analysis_results with
  | none => simp [content_writer_submit_tab, hA] at hmem
  | some r =>
      cases hp : optStrTruthy r.report_data.project_brief_id with
      | false => simp [content_writer_submit_tab, hA, hp] at hmem
      | true =>
          cases hc : (content_file.isNone && (pyStrip content_text == "")) with
          | true => simp [content_writer_submit_tab, hA, hp, hc] at hmem
          | false =>
              cases hd : optStrTruthy designer_id with
              | false => simp [content_writer_submit_tab, hA, hp, hc, hd] at hmem
              | true =>
                  cases reply with
                  | http status body result =>
                      cases h200 : (status == 200) with
                      | true =>
                          simp [content_writer_submit_tab, hA, hp, hc, hd, h200,
                            mkSubmitContentRequest] at hmem
                          simp [hmem]
                      | false =>
                          simp [content_writer_submit_tab, hA, hp, hc, hd, h200,
                            mkSubmitContentRequest] at hmem
                          simp [hmem]
                  | timeout m =>
                      simp [content_writer_submit_tab, hA, hp, hc, hd,
                        mkSubmitContentRequest] at hmem
                      simp [hmem]
                  | connectionFailed m =>
                      simp [content_writer_submit_tab, hA, hp, hc, hd,
                        mkSubmitContentRequest] at hmem
                      simp [hmem]
                  | otherExn m =>
                      simp [content_writer_submit_tab, hA, hp, hc, hd,
                        mkSubmitContentRequest] at hmem
                      simp [hmem]

/-- Witness for C10: the request issued by a concrete successful Stage-2
submission, in a session whose stored `content_writer_id` is `some "42"`,
carries `content_writer_id = none`. -/
theorem stage2_request_content_writer_id_null_witness :
    (mkSubmitContentRequest sampleStage1Response (some "9") "draft"
        (some "content.pdf")).content_writer_id = none :=
  stage2_request_content_writer_id_null stage1DoneSession (some "content.pdf") "draft"
    (some "9") (GatewayReply.http 200 "ok" sampleStage2Response)
    (Request.submitContent
      (mkSubmitContentRequest sampleStage1Response (some "9") "draft" (some "content.pdf")))
    (mkSubmitContentRequest sampleStage1Response (some "9") "draft" (some "content.pdf"))
    (by decide) rfl

end ProjectBrief
